import Mathlib

/-!
Shallow embedding of the `postgresql-data-accessor` core:
`ObjectUtility` (camelToSnakeCase, convertObjectToFlat) and
`PostgreSQLAccessor` (metadata cache, filterWithTableColumnName,
toConditionClause, upsert/update/read/delete query construction).

JavaScript values are modelled by the inductive `PG.JSVal`; JS objects are
insertion-ordered association lists; JS `Map` is an association list with
update-in-place `alSet`.  Each data operation is split into the pure query
construction (`upsertQuery`, `updateQuery`, `readQuery`, `deleteQuery`),
mirroring the code up to the `client.query` call, and a runner that feeds
the constructed query to an abstract client.
-/

namespace PG

/-- A JavaScript value, as used by the accessor: `undefined`, `null`,
booleans, numbers (modelled as integers - the library does no arithmetic),
strings, arrays, and plain objects (insertion-ordered field lists). -/
inductive JSVal where
  | vUndefined
  | vNull
  | vBool (b : Bool)
  | vNum (n : Int)
  | vStr (s : String)
  | vArr (elems : List JSVal)
  | vObj (fields : List (String × JSVal))

/-- A JS plain object: insertion-ordered association list. -/
abbrev Obj := List (String × JSVal)

/-- Association-list lookup, modelling both `Map.get` and property access
(absent keys give `none`, the embedding of `undefined`). -/
def alGet {α : Type} (m : List (String × α)) (k : String) : Option α :=
  (m.find? (fun p => p.1 == k)).map (fun p => p.2)

/-- Association-list insert-or-update, modelling `Map.set` and JS property
assignment: an existing key keeps its position, a new key is appended. -/
def alSet {α : Type} (m : List (String × α)) (k : String) (v : α) :
    List (String × α) :=
  match m with
  | [] => [(k, v)]
  | (k2, v2) :: rest => if k2 == k then (k, v) :: rest else (k2, v2) :: alSet rest k v

/-- JS truthiness of a value. -/
def jsTruthy : JSVal → Bool
  | .vUndefined => false
  | .vNull => false
  | .vBool b => b
  | .vNum n => n != 0
  | .vStr s => s != ""
  | .vArr _ => true
  | .vObj _ => true

/-- Is the value `undefined`? -/
def JSVal.isUndefined : JSVal → Bool
  | .vUndefined => true
  | _ => false

mutual

/-- JS string coercion `String(v)`, as used for `${operator}` interpolation. -/
def jsToString : JSVal → String
  | .vUndefined => "undefined"
  | .vNull => "null"
  | .vBool b => if b then "true" else "false"
  | .vNum n => toString n
  | .vStr s => s
  | .vArr xs => String.intercalate "," (jsToStringList xs)
  | .vObj _ => "[object Object]"

/-- Element stringification of `Array.prototype.join`: `null`/`undefined`
become the empty string. -/
def jsToStringList : List JSVal → List String
  | [] => []
  | x :: xs =>
      (match x with
       | .vNull => ""
       | .vUndefined => ""
       | v => jsToString v) :: jsToStringList xs

end

/-- ASCII uppercase letter test (`[A-Z]` of the regex). -/
def isAsciiUpper (c : Char) : Bool := 'A' ≤ c && c ≤ 'Z'

/-- `[a-z0-9]` of the regex in `camelToSnakeCase`. -/
def isLowerOrDigit (c : Char) : Bool :=
  ('a' ≤ c && c ≤ 'z') || ('0' ≤ c && c ≤ '9')

/-- `toLowerCase` on one character, restricted to the ASCII range the
library's identifiers use. -/
def jsLowerChar (c : Char) : Char :=
  if isAsciiUpper c then Char.ofNat (c.toNat + 32) else c

/-- The replacement
`str.replace(/([a-z0-9]|(?=[A-Z]))([A-Z])/g, "$1_$2")`.
In the global left-to-right scan every `[A-Z]` character is consumed
exactly once as group 2 (either paired with a preceding `[a-z0-9]`
character, or alone through the empty lookahead alternative, which
succeeds at every position whose character is `[A-Z]`), and group 1 is
re-emitted unchanged; so the replacement inserts an underscore before
every `[A-Z]` character and leaves everything else in place. -/
def snakeScan : List Char → List Char
  | [] => []
  | c :: rest =>
      if isAsciiUpper c then '_' :: c :: snakeScan rest
      else c :: snakeScan rest

/-- `ObjectUtility.camelToSnakeCase`: the regex replacement followed by
`toLowerCase()`.  (The input-type check is not modelled: all call sites in
the accessor pass strings.) -/
def camelToSnakeCase (s : String) : String :=
  String.mk ((snakeScan s.data).map jsLowerChar)

/-- Errors thrown by the library (`new Error(msg)`) versus errors
propagated unchanged from the database client. -/
inductive JsError where
  | err (msg : String)
  | dbErr (e : String)
deriving DecidableEq, Repr

mutual

/-- One value of the `for (const key in obj)` loop of
`convertObjectToFlat`: a plain object (and only that - arrays and `null`
fail the `typeof`/`!== null`/`!Array.isArray` guard) recurses with the
compound key as the new prefix; every other value becomes a leaf under
its key. -/
def flattenValue (newKey : String) : JSVal → List (String × JSVal)
  | .vObj fields => flattenFields fields newKey
  | other => [(newKey, other)]

/-- The raw key/value stream produced by the loop of
`convertObjectToFlat`, each key snake-cased (prefixed with
`parentKey + "_"` when a prefix is present). -/
def flattenFields : List (String × JSVal) → String → List (String × JSVal)
  | [], _ => []
  | (k, v) :: rest, parentKey =>
      flattenValue (camelToSnakeCase (if parentKey = "" then k else parentKey ++ "_" ++ k)) v ++
        flattenFields rest parentKey

end

/-- JS object accumulation of the flattening loop
(`flatObject[newKey] = v` and `{...flatObject, ...childObject}`): each
produced pair is inserted with update-in-place-or-append semantics. -/
def mergeAll (ps : List (String × JSVal)) : Obj :=
  ps.foldl (fun acc p => alSet acc p.1 p.2) []

/-- `Array` enumeration under `for..in`: index keys with the elements. -/
def enumFields (xs : List JSVal) : List (String × JSVal) :=
  xs.enum.map (fun p => (toString p.1, p.2))

/-- `ObjectUtility.convertObjectToFlat`: `null`/`undefined` give an empty
mapping, non-objects throw, objects (and arrays, whose `typeof` is
`object`) are flattened recursively. -/
def convertObjectToFlat (obj : JSVal) (parentKey : String) : Except JsError Obj :=
  match obj with
  | .vNull => .ok []
  | .vUndefined => .ok []
  | .vObj fields => .ok (mergeAll (flattenFields fields parentKey))
  | .vArr xs => .ok (mergeAll (flattenFields (enumFields xs) parentKey))
  | _ => .error (.err "Input must be an object")

/-- `PostgreSQLAccessor`'s three per-table metadata caches (JS `Map`s). -/
structure Accessor where
  columnsMap : List (String × List String)
  uniqueColumnsMap : List (String × List String)
  primaryKeyColumnsMap : List (String × List String)

/-- A freshly constructed accessor: all three maps empty. -/
def emptyAccessor : Accessor := ⟨[], [], []⟩

/-- `addTableColumns`: on success the column-name rows replace the cache
entry for the table; on failure the caught error is logged and rethrown
unchanged, with the cache untouched.  The catalog lookup result is an
input (`res`), the extracted `column_name` strings of the returned rows. -/
def addTableColumns (st : Accessor) (tableName : String)
    (res : Except String (List String)) : Accessor × Option JsError :=
  match res with
  | .ok cols => ({st with columnsMap := alSet st.columnsMap tableName cols}, none)
  | .error e => (st, some (.dbErr e))

/-- `addUniqueTableColumns`: same shape over `uniqueColumnsMap`. -/
def addUniqueTableColumns (st : Accessor) (tableName : String)
    (res : Except String (List String)) : Accessor × Option JsError :=
  match res with
  | .ok cols => ({st with uniqueColumnsMap := alSet st.uniqueColumnsMap tableName cols}, none)
  | .error e => (st, some (.dbErr e))

/-- `addPrimaryKeyColumns`: same shape over `primaryKeyColumnsMap`. -/
def addPrimaryKeyColumns (st : Accessor) (tableName : String)
    (res : Except String (List String)) : Accessor × Option JsError :=
  match res with
  | .ok cols => ({st with primaryKeyColumnsMap := alSet st.primaryKeyColumnsMap tableName cols}, none)
  | .error e => (st, some (.dbErr e))

/-- `addTable`: the three catalog lookups in order, stopping at the first
failure; the post-state keeps whatever the earlier successful lookups
cached. -/
def addTable (st : Accessor) (tableName : String)
    (colsRes uniqRes pkRes : Except String (List String)) : Accessor × Option JsError :=
  match addTableColumns st tableName colsRes with
  | (st1, some e) => (st1, some e)
  | (st1, none) =>
      match addUniqueTableColumns st1 tableName uniqRes with
      | (st2, some e) => (st2, some e)
      | (st2, none) => addPrimaryKeyColumns st2 tableName pkRes

/-- `filterWithTableColumnName`: for truthy `data`, flatten it, look up the
cached columns (throwing if the table was never discovered), and keep the
pairs whose key is a known column and whose value is not `undefined`;
falsy `data` short-circuits to an empty mapping. -/
def filterWithTableColumnName (st : Accessor) (data : JSVal) (tableName : String) :
    Except JsError Obj :=
  if jsTruthy data then
    match convertObjectToFlat data "" with
    | .error e => .error e
    | .ok dataMap =>
        match alGet st.columnsMap tableName with
        | none => .error (.err ("Table " ++ tableName ++ " columns not found. Call addTable() first."))
        | some tableColumns =>
            .ok (dataMap.filter (fun kv => tableColumns.contains kv.1 && !kv.2.isUndefined))
  else
    .ok []

/-- The shape-sniffing of one condition value: a (truthy) object with a
truthy `operator` property contributes its `operator` string and its
`value` property; anything else contributes `=` and the value itself. -/
def condOpVal (value : JSVal) : String × JSVal :=
  match value with
  | .vObj fields =>
      match alGet fields "operator" with
      | some op =>
          if jsTruthy op then (jsToString op, (alGet fields "value").getD .vUndefined)
          else ("=", .vObj fields)
      | none => ("=", .vObj fields)
  | other => ("=", other)

/-- The skip test `value !== undefined && value !== null`, negated. -/
def condSkip : JSVal → Bool
  | .vUndefined => true
  | .vNull => true
  | _ => false

/-- The entry loop of `toConditionClause`: `null`/`undefined` values are
skipped without consuming a parameter index; every other entry appends
its fragment and its bound value, incrementing the index. -/
def condLoop : Obj → Nat → String × List JSVal
  | [], _ => ("", [])
  | (key, value) :: rest, paramIndex =>
      if condSkip value then condLoop rest paramIndex
      else
        let opv := condOpVal value
        let tail := condLoop rest (paramIndex + 1)
        (" AND " ++ key ++ " " ++ opv.1 ++ " $" ++ toString paramIndex ++ tail.1,
         opv.2 :: tail.2)

/-- `toConditionClause`: falsy `conditions` (modelled as `none`) give an
empty clause and parameter list; otherwise the loop starts at `$1`. -/
def toConditionClause (conditions : Option Obj) : String × List JSVal :=
  match conditions with
  | none => ("", [])
  | some cs => condLoop cs 1

/-- A statement handed to `client.query`: the SQL text and the bound
parameter list, in order. -/
structure SQLQuery where
  text : String
  params : List JSVal

/-- `keys.join(", ")`. -/
def joinComma (xs : List String) : String := String.intercalate ", " xs

/-- `values.map((_, i) => "$" + (i + 1))`: the placeholders `$1..$n`. -/
def valuePlaceholders (n : Nat) : List String :=
  (List.range n).map (fun i => "$" ++ toString (i + 1))

/-- `keys.map((key, i) => key + " = $" + (i + 1))`: the SET assignments. -/
def setAssignments (keys : List String) : List String :=
  keys.enum.map (fun p => p.2 ++ " = $" ++ toString (p.1 + 1))

/-- The `upsert` template literal: INSERT ... ON CONFLICT ... DO UPDATE
SET ... RETURNING *, with no WHERE clause. -/
def upsertText (tableName : String) (keys : List String) (target : List String) : String :=
  "\n            INSERT INTO " ++ tableName ++ " (" ++ joinComma keys ++ ")" ++
  "\n            VALUES (" ++ joinComma (valuePlaceholders keys.length) ++ ")" ++
  "\n            ON CONFLICT (" ++ joinComma target ++ ")" ++
  "\n            DO UPDATE SET " ++ joinComma (setAssignments keys) ++
  "\n            RETURNING *"

/-- The conflict-target resolution of `upsert` (lines
`let uniqueColumns = this.primaryKeyColumnsMap.get(...)` and the
`!uniqueColumns || uniqueColumns.length === 0` fallback): the cached
primary-key columns when present and non-empty, else the cached
unique-constraint columns (possibly absent). -/
def resolveUniqueColumns (st : Accessor) (tableName : String) : Option (List String) :=
  match alGet st.primaryKeyColumnsMap tableName with
  | none => alGet st.uniqueColumnsMap tableName
  | some l => if l.length = 0 then alGet st.uniqueColumnsMap tableName else some l

/-- `upsert` up to the `client.query` call: filter the data, reject an
empty filtered set, compute the condition parameters and append them to
the filtered values, resolve the conflict target (rejecting when none),
and assemble the statement. -/
def upsertQuery (st : Accessor) (tableName : String) (data : JSVal)
    (conditions : Option Obj) : Except JsError SQLQuery :=
  match filterWithTableColumnName st data tableName with
  | .error e => .error e
  | .ok filteredData =>
      let keys := filteredData.map Prod.fst
      let values := filteredData.map Prod.snd
      if keys.length = 0 then
        .error (.err "No valid columns found for upsert operation")
      else
        let conditionParams := (toConditionClause conditions).2
        let allParams := values ++ conditionParams
        match resolveUniqueColumns st tableName with
        | none => .error (.err ("No unique constraints found for table " ++ tableName))
        | some uniqueColumns =>
            if uniqueColumns.length = 0 then
              .error (.err ("No unique constraints found for table " ++ tableName))
            else
              .ok ⟨upsertText tableName keys uniqueColumns, allParams⟩

/-- The `update` template literal. -/
def updateText (tableName : String) (keys : List String) (whereClause : String) : String :=
  "\n            UPDATE " ++ tableName ++
  "\n            SET " ++ joinComma (setAssignments keys) ++
  "\n            WHERE 1 = 1 " ++ whereClause ++
  "\n            RETURNING *"

/-- `update` up to the `client.query` call: filter the data, reject an
empty filtered set, build the condition fragment (indices restarting at
`$1`), and bind the filtered values followed by the condition values. -/
def updateQuery (st : Accessor) (tableName : String) (data : JSVal)
    (conditions : Option Obj) : Except JsError SQLQuery :=
  match filterWithTableColumnName st data tableName with
  | .error e => .error e
  | .ok filteredData =>
      if filteredData.length = 0 then
        .error (.err "No valid columns found for update operation")
      else
        let wc := toConditionClause conditions
        .ok ⟨updateText tableName (filteredData.map Prod.fst) wc.1,
             filteredData.map Prod.snd ++ wc.2⟩

/-- The `read` template literal. -/
def readText (tableName : String) (whereClause : String) : String :=
  "\n            SELECT *" ++
  "\n            FROM " ++ tableName ++
  "\n            WHERE 1 = 1 " ++ whereClause

/-- `read` up to the `client.query` call: no metadata lookup at all - the
statement is built from the table name and the condition clause alone. -/
def readQuery (_st : Accessor) (tableName : String) (conditions : Option Obj) : SQLQuery :=
  let wc := toConditionClause conditions
  ⟨readText tableName wc.1, wc.2⟩

/-- The `delete` template literal. -/
def deleteText (tableName : String) (whereClause : String) : String :=
  "\n            DELETE" ++
  "\n            FROM " ++ tableName ++
  "\n            WHERE 1 = 1 " ++ whereClause ++
  "\n            RETURNING *"

/-- `delete` up to the `client.query` call: like `read`, no metadata
lookup. -/
def deleteQuery (_st : Accessor) (tableName : String) (conditions : Option Obj) : SQLQuery :=
  let wc := toConditionClause conditions
  ⟨deleteText tableName wc.1, wc.2⟩

/-- The abstract connection: maps a statement to the driver outcome
(`result.rows`, each row a JS value, or a database error). -/
def ClientFn : Type := SQLQuery → Except String (List JSVal)

/-- `await this.client.query(...)` followed by `return result.rows`:
driver errors propagate unchanged, success returns the full rows array. -/
def runQuery (q : SQLQuery) (client : ClientFn) : Except JsError (List JSVal) :=
  match client q with
  | .error e => .error (.dbErr e)
  | .ok rows => .ok rows

/-- The full `upsert` method: construct the statement, then execute it. -/
def upsert (st : Accessor) (tableName : String) (data : JSVal)
    (conditions : Option Obj) (client : ClientFn) : Except JsError (List JSVal) :=
  match upsertQuery st tableName data conditions with
  | .error e => .error e
  | .ok q => runQuery q client

/-- The full `update` method. -/
def update (st : Accessor) (tableName : String) (data : JSVal)
    (conditions : Option Obj) (client : ClientFn) : Except JsError (List JSVal) :=
  match updateQuery st tableName data conditions with
  | .error e => .error e
  | .ok q => runQuery q client

/-- The full `read` method. -/
def read (st : Accessor) (tableName : String) (conditions : Option Obj)
    (client : ClientFn) : Except JsError (List JSVal) :=
  runQuery (readQuery st tableName conditions) client

/-- The full `delete` method. -/
def delete (st : Accessor) (tableName : String) (conditions : Option Obj)
    (client : ClientFn) : Except JsError (List JSVal) :=
  runQuery (deleteQuery st tableName conditions) client

/-- State of the placeholder scanner: outside any placeholder, just after
a dollar sign, or inside a digit run with the accumulated index. -/
inductive PHState where
  | normal
  | sawDollar
  | inNum (acc : Nat)

/-- Scanner extracting the numeric placeholder indices (`$` followed by a
maximal digit run) occurring in a SQL text, left to right. -/
def scanPH : List Char → PHState → List Nat
  | [], .inNum acc => [acc]
  | [], _ => []
  | c :: rest, .normal =>
      scanPH rest (if c = '$' then .sawDollar else .normal)
  | c :: rest, .sawDollar =>
      if c.isDigit then scanPH rest (.inNum (c.toNat - 48))
      else scanPH rest (if c = '$' then .sawDollar else .normal)
  | c :: rest, .inNum acc =>
      if c.isDigit then scanPH rest (.inNum (acc * 10 + (c.toNat - 48)))
      else if c = '$' then acc :: scanPH rest .sawDollar
      else acc :: scanPH rest .normal

/-- The placeholder indices referenced by a SQL text, in order. -/
def placeholdersIn (s : String) : List Nat := scanPH s.data .normal

/-! Claim-side definitions, following the words of the specification: the
condition entries that are kept (non-`null`/non-`undefined`), each with its
operator token (`=` when no explicit operator object is given) and the
value to bind. -/

/-- Spec-side: the kept condition entries, in insertion order, as
(field, operator, bound value) triples. -/
def keptConds : Obj → List (String × String × JSVal)
  | [] => []
  | (k, v) :: rest =>
      if condSkip v then keptConds rest
      else (k, (condOpVal v).1, (condOpVal v).2) :: keptConds rest

/-- Spec-side: the fragment the claim describes - for each kept entry,
append `" AND <field> <operator> $<i>"` with sequentially assigned
1-based indices. -/
def specFragment : List (String × String × JSVal) → Nat → String
  | [], _ => ""
  | (f, op, _) :: rest, i =>
      " AND " ++ f ++ " " ++ op ++ " $" ++ toString i ++ specFragment rest (i + 1)

/-- Spec-side: the bound values of the kept entries, in order. -/
def specParams (ks : List (String × String × JSVal)) : List JSVal :=
  ks.map (fun t => t.2.2)

/-- Spec-side: the parameter indices assigned to the condition entries,
sequential from the given start, skipped entries consuming none. -/
def fragIndices : Obj → Nat → List Nat
  | [], _ => []
  | (_, v) :: rest, i =>
      if condSkip v then fragIndices rest i else i :: fragIndices rest (i + 1)

end PG

open PG

/-- A discovered `users` table: columns `[id, name, email]`, unique
constraint on `[email]`, primary key `[id]`. -/
def stUsers : Accessor :=
  ⟨[("users", ["id", "name", "email"])], [("users", ["email"])], [("users", ["id"])]⟩

/-- A discovered single-column table `t1` with no constraints cached. -/
def stT1 : Accessor := ⟨[("t1", ["name"])], [], []⟩

/-! Helper lemmas. -/

theorem snakeScan_no_upper (cs : List Char) :
    (∀ c ∈ cs, isAsciiUpper c = false) → snakeScan cs = cs := by
  induction cs with
  | nil => intro _; rfl
  | cons c rest ih =>
      intro h
      have hc : isAsciiUpper c = false := h c (by simp)
      simp [snakeScan, hc, ih (fun x hx => h x (by simp [hx]))]

theorem map_jsLowerChar_no_upper (cs : List Char) :
    (∀ c ∈ cs, isAsciiUpper c = false) → cs.map jsLowerChar = cs := by
  induction cs with
  | nil => intro _; rfl
  | cons c rest ih =>
      intro h
      have hc : isAsciiUpper c = false := h c (by simp)
      have hrest : ∀ x ∈ rest, isAsciiUpper x = false := fun x hx => h x (by simp [hx])
      simp [jsLowerChar, hc, ih hrest]

theorem condLoop_spec (cs : Obj) :
    ∀ i, condLoop cs i = (specFragment (keptConds cs) i, specParams (keptConds cs)) := by
  induction cs with
  | nil => intro i; rfl
  | cons kv rest ih =>
      intro i
      obtain ⟨k, v⟩ := kv
      by_cases hs : condSkip v = true
      · simp [condLoop, keptConds, hs, ih]
      · simp only [Bool.not_eq_true] at hs
        simp [condLoop, keptConds, hs, ih, specFragment, specParams, condOpVal]

theorem keptConds_all_skipped (cs : Obj) :
    (∀ kv ∈ cs, condSkip kv.2 = true) → keptConds cs = [] := by
  induction cs with
  | nil => intro _; rfl
  | cons kv rest ih =>
      intro h
      have hk : condSkip kv.2 = true := h kv (by simp)
      simp [keptConds, hk, ih (fun x hx => h x (by simp [hx]))]

theorem fragIndices_range (cs : Obj) :
    ∀ i, fragIndices cs i = List.range' i (keptConds cs).length := by
  induction cs with
  | nil => intro i; rfl
  | cons kv rest ih =>
      intro i
      obtain ⟨k, v⟩ := kv
      by_cases hs : condSkip v = true
      · simp [fragIndices, keptConds, hs, ih]
      · simp [fragIndices, keptConds, hs, ih, List.range']

/-! The claims. -/

/-- C10: `toSnakeCase` is the identity on strings with no (ASCII)
uppercase letters, a leading uppercase letter yields a leading underscore,
and in particular `toSnakeCase "Name" = "_name"`. -/
theorem toSnakeCase_idempotent_and_leading_underscore :
    (∀ s : String, (∀ c ∈ s.data, isAsciiUpper c = false) → camelToSnakeCase s = s) ∧
    (∀ (c : Char) (cs : List Char), isAsciiUpper c = true →
      (camelToSnakeCase (String.mk (c :: cs))).data.head? = some '_') ∧
    camelToSnakeCase "Name" = "_name" := by
  refine ⟨?_, ?_, by decide⟩
  · intro s h
    show String.mk ((snakeScan s.data).map jsLowerChar) = s
    rw [snakeScan_no_upper s.data h, map_jsLowerChar_no_upper s.data h]
  · intro c cs hc
    show (((snakeScan (c :: cs)).map jsLowerChar).head?) = some '_'
    have h1 : snakeScan (c :: cs) = '_' :: c :: snakeScan cs := by simp [snakeScan, hc]
    rw [h1]
    show some (jsLowerChar '_') = some '_'
    decide

/-- C10 witness: concrete instances of both quantified parts. -/
theorem toSnakeCase_idempotent_and_leading_underscore_witness :
    camelToSnakeCase "abc_12" = "abc_12" ∧
    (camelToSnakeCase (String.mk ('N' :: "ame".data))).data.head? = some '_' :=
  ⟨toSnakeCase_idempotent_and_leading_underscore.1 "abc_12" (by decide),
   toSnakeCase_idempotent_and_leading_underscore.2.1 'N' "ame".data (by decide)⟩

/-- C8: `buildConditionClause` (source name `toConditionClause`) iterates
the mapping in insertion order, skips `null`/`undefined` values entirely,
and for each remaining entry appends `" AND <field> <operator> $<i>"` with
sequential 1-based indices while appending the bound value, defaulting the
operator to `=`; empty or fully-null conditions yield an empty fragment
and empty parameter list. -/
theorem toConditionClause_follows_spec :
    (∀ cs : Obj, toConditionClause (some cs) =
      (specFragment (keptConds cs) 1, specParams (keptConds cs))) ∧
    toConditionClause (some []) = ("", []) ∧
    (∀ cs : Obj, (∀ kv ∈ cs, condSkip kv.2 = true) → toConditionClause (some cs) = ("", [])) ∧
    toConditionClause
        (some [("age", .vObj [("operator", .vStr ">"), ("value", .vNum 18)]), ("name", .vStr "J")]) =
      (" AND age > $1 AND name = $2", [.vNum 18, .vStr "J"]) := by
  refine ⟨fun cs => condLoop_spec cs 1, rfl, ?_, rfl⟩
  intro cs h
  show condLoop cs 1 = ("", [])
  rw [condLoop_spec cs 1, keptConds_all_skipped cs h]
  rfl

/-- C8 witness: the quantified parts instantiated at the example of the
spec and at a fully-null mapping. -/
theorem toConditionClause_follows_spec_witness :
    toConditionClause (some [("age", JSVal.vNull), ("x", JSVal.vUndefined)]) = ("", []) ∧
    toConditionClause (some [("name", .vStr "J")]) =
      (specFragment (keptConds [("name", .vStr "J")]) 1,
       specParams (keptConds [("name", .vStr "J")])) :=
  ⟨toConditionClause_follows_spec.2.2.1 [("age", JSVal.vNull), ("x", JSVal.vUndefined)]
     (by decide),
   toConditionClause_follows_spec.1 [("name", .vStr "J")]⟩

/-- C9: `filterToKnownColumns` (source name `filterWithTableColumnName`)
keeps exactly the flattened pairs whose key is a cached column and whose
value is not `undefined`; with no cached columns for the table it fails
with the `SchemaNotDiscovered` error; `null`/`undefined` data yields an
empty mapping without error. -/
theorem filterToKnownColumns_follows_spec :
    (∀ (st : Accessor) (t : String) (cols : List String) (fields : List (String × JSVal)),
      alGet st.columnsMap t = some cols →
      ∃ fd, filterWithTableColumnName st (.vObj fields) t = .ok fd ∧
        ∀ kv, kv ∈ fd ↔
          (kv ∈ mergeAll (flattenFields fields "") ∧ kv.1 ∈ cols ∧ kv.2.isUndefined = false)) ∧
    (∀ (st : Accessor) (t : String) (fields : List (String × JSVal)),
      alGet st.columnsMap t = none →
      filterWithTableColumnName st (.vObj fields) t =
        .error (.err ("Table " ++ t ++ " columns not found. Call addTable() first."))) ∧
    (∀ (st : Accessor) (t : String),
      filterWithTableColumnName st .vNull t = .ok [] ∧
      filterWithTableColumnName st .vUndefined t = .ok []) := by
  refine ⟨?_, ?_, fun st t => ⟨rfl, rfl⟩⟩
  · intro st t cols fields h
    refine ⟨(mergeAll (flattenFields fields "")).filter
        (fun kv => cols.contains kv.1 && !kv.2.isUndefined), ?_, ?_⟩
    · simp [filterWithTableColumnName, jsTruthy, convertObjectToFlat, h]
    · intro kv
      simp only [List.mem_filter, Bool.and_eq_true, Bool.not_eq_true', List.elem_iff,
        and_assoc]
  · intro st t fields h
    simp [filterWithTableColumnName, jsTruthy, convertObjectToFlat, h]

/-- C9 witness: the spec example - cached columns `[id, name, email]`,
input `{name: "J", invalid: "X"}` - keeps exactly `name`; an undiscovered
table fails; `null` data yields an empty mapping. -/
theorem filterToKnownColumns_follows_spec_witness :
    (∃ fd, filterWithTableColumnName stUsers
        (.vObj [("name", .vStr "J"), ("invalid", .vStr "X")]) "users" = .ok fd ∧
      ∀ kv, kv ∈ fd ↔
        (kv ∈ mergeAll (flattenFields [("name", .vStr "J"), ("invalid", .vStr "X")] "") ∧
          kv.1 ∈ ["id", "name", "email"] ∧ kv.2.isUndefined = false)) ∧
    filterWithTableColumnName emptyAccessor (.vObj [("name", .vStr "J")]) "users" =
      .error (.err "Table users columns not found. Call addTable() first.") ∧
    filterWithTableColumnName emptyAccessor .vNull "users" = .ok [] :=
  ⟨filterToKnownColumns_follows_spec.1 stUsers "users" ["id", "name", "email"]
      [("name", .vStr "J"), ("invalid", .vStr "X")] rfl,
   filterToKnownColumns_follows_spec.2.1 emptyAccessor "users" [("name", .vStr "J")] rfl,
   (filterToKnownColumns_follows_spec.2.2 emptyAccessor "users").1⟩

/-- C7: `upsert` rejects an empty filtered-data set with the
`NoValidColumns` error, and a non-empty filtered set with neither
primary-key nor unique-constraint columns cached with the
`NoUniqueConstraint` error - in both cases without issuing any query
(the error is independent of the client). -/
theorem upsert_precondition_errors :
    (∀ (st : Accessor) (t : String) (data : JSVal) (conds : Option Obj) (client : ClientFn),
      filterWithTableColumnName st data t = .ok [] →
      upsert st t data conds client = .error (.err "No valid columns found for upsert operation")) ∧
    (∀ (st : Accessor) (t : String) (data : JSVal) (conds : Option Obj) (client : ClientFn)
        (fd : Obj),
      filterWithTableColumnName st data t = .ok fd → fd ≠ [] →
      (resolveUniqueColumns st t = none ∨ resolveUniqueColumns st t = some []) →
      upsert st t data conds client =
        .error (.err ("No unique constraints found for table " ++ t))) := by
  constructor
  · intro st t data conds client hf
    simp [upsert, upsertQuery, hf]
  · intro st t data conds client fd hf hne hr
    cases fd with
    | nil => exact absurd rfl hne
    | cons kv rest =>
        cases hr with
        | inl h => simp [upsert, upsertQuery, hf, h]
        | inr h => simp [upsert, upsertQuery, hf, h]

/-- C7 witness: an upsert of data with no known column fails with
`NoValidColumns`; on a table with no constraints cached it fails with
`NoUniqueConstraint`; both with a client that would answer any query. -/
theorem upsert_precondition_errors_witness :
    upsert stUsers "users" (.vObj [("ghost", .vStr "X")]) none (fun _ => .ok []) =
      .error (.err "No valid columns found for upsert operation") ∧
    upsert stT1 "t1" (.vObj [("name", .vStr "J")]) none (fun _ => .ok []) =
      .error (.err "No unique constraints found for table t1") :=
  ⟨upsert_precondition_errors.1 stUsers "users" (.vObj [("ghost", .vStr "X")]) none
      (fun _ => .ok []) rfl,
   upsert_precondition_errors.2 stT1 "t1" (.vObj [("name", .vStr "J")]) none
      (fun _ => .ok []) [("name", .vStr "J")] rfl (by simp) (.inl rfl)⟩

/-- C6: the conflict target of `upsert` is the cached primary-key column
list whenever it is non-empty (even when unique-constraint columns are
also cached), and otherwise the cached unique-constraint columns; the
emitted statement's `ON CONFLICT` target is exactly the resolved list. -/
theorem upsert_conflict_target_preference :
    (∀ (st : Accessor) (t : String) (l : List String),
      alGet st.primaryKeyColumnsMap t = some l → l ≠ [] →
      resolveUniqueColumns st t = some l) ∧
    (∀ (st : Accessor) (t : String),
      (alGet st.primaryKeyColumnsMap t = none ∨ alGet st.primaryKeyColumnsMap t = some []) →
      resolveUniqueColumns st t = alGet st.uniqueColumnsMap t) ∧
    (∀ (st : Accessor) (t : String) (data : JSVal) (conds : Option Obj) (fd : Obj)
        (target : List String),
      filterWithTableColumnName st data t = .ok fd → fd ≠ [] →
      resolveUniqueColumns st t = some target → target ≠ [] →
      upsertQuery st t data conds =
        .ok ⟨upsertText t (fd.map Prod.fst) target,
             fd.map Prod.snd ++ (toConditionClause conds).2⟩) := by
  refine ⟨?_, ?_, ?_⟩
  · intro st t l h hne
    simp [resolveUniqueColumns, h, List.length_eq_zero, hne]
  · intro st t h
    cases h with
    | inl h => simp [resolveUniqueColumns, h]
    | inr h => simp [resolveUniqueColumns, h]
  · intro st t data conds fd target hf hne hr htne
    cases fd with
    | nil => exact absurd rfl hne
    | cons kv rest =>
        have htlen : target.length ≠ 0 := by
          simpa [List.length_eq_zero] using htne
        simp [upsertQuery, hf, hr, htlen]

/-- C1 counterexample: with `users` discovered (primary key `[id]`
cached), `upsert` with data `{name: "J"}` and conditions `{email: "e"}`
passes a parameter list of length 2 - the filtered value AND the
condition-derived value - to the client, not just the single filtered
value the claim asserts; and the call returns the full driver rows array
(here two rows), not the first row as a single object. -/
theorem upsert_condition_params_counterexample :
    filterWithTableColumnName stUsers (.vObj [("name", .vStr "J")]) "users" =
      .ok [("name", .vStr "J")] ∧
    (upsertQuery stUsers "users" (.vObj [("name", .vStr "J")])
        (some [("email", .vStr "e")])).map (fun q => q.params) =
      .ok [.vStr "J", .vStr "e"] ∧
    [JSVal.vStr "J", JSVal.vStr "e"] ≠ [JSVal.vStr "J"] ∧
    upsert stUsers "users" (.vObj [("name", .vStr "J")]) (some [("email", .vStr "e")])
        (fun _ => .ok [.vObj [("id", .vNum 1)], .vObj [("id", .vNum 2)]]) =
      .ok [.vObj [("id", .vNum 1)], .vObj [("id", .vNum 2)]] :=
  ⟨rfl, rfl, by simp, rfl⟩

/-- C1 amended: the parameter list passed to the connection is the
filtered data values in filtered-key order FOLLOWED BY the
condition-derived values; the emitted statement is independent of the
`conditions` argument (it is the INSERT ... ON CONFLICT ... DO UPDATE
template, with no WHERE clause, referencing only the filtered-value
placeholders); the call returns the driver's rows array unchanged. -/
theorem upsert_params_text_and_result :
    (∀ (st : Accessor) (t : String) (data : JSVal) (conds : Option Obj) (fd : Obj)
        (q : SQLQuery),
      filterWithTableColumnName st data t = .ok fd →
      upsertQuery st t data conds = .ok q →
      q.params = fd.map Prod.snd ++ (toConditionClause conds).2) ∧
    (∀ (st : Accessor) (t : String) (data : JSVal) (conds conds' : Option Obj),
      (upsertQuery st t data conds).map (fun q => q.text) =
      (upsertQuery st t data conds').map (fun q => q.text)) ∧
    (∀ (st : Accessor) (t : String) (data : JSVal) (conds : Option Obj) (q : SQLQuery)
        (client : ClientFn) (rows : List JSVal),
      upsertQuery st t data conds = .ok q → client q = .ok rows →
      upsert st t data conds client = .ok rows) := by
  refine ⟨?_, ?_, ?_⟩
  · intro st t data conds fd q hf hq
    cases fd with
    | nil => simp [upsertQuery, hf] at hq
    | cons kv rest =>
        cases hr : resolveUniqueColumns st t with
        | none => simp [upsertQuery, hf, hr] at hq
        | some target =>
            cases target with
            | nil => simp [upsertQuery, hf, hr] at hq
            | cons c ts =>
                simp [upsertQuery, hf, hr] at hq
                rw [← hq]
                simp
  · intro st t data conds conds'
    cases hf : filterWithTableColumnName st data t with
    | error e => simp [upsertQuery, hf]
    | ok fd =>
        cases fd with
        | nil => simp [upsertQuery, hf]
        | cons kv rest =>
            cases hr : resolveUniqueColumns st t with
            | none => simp [upsertQuery, hf, hr]
            | some target =>
                cases target with
                | nil => simp [upsertQuery, hf, hr]
                | cons c ts =>
                    simp only [upsertQuery, hf, hr]
                    rfl
  · intro st t data conds q client rows hq hc
    simp [upsert, hq, runQuery, hc]

/-- C1 amended witness: the characterization instantiated on the
counterexample input. -/
theorem upsert_params_text_and_result_witness :
    (⟨upsertText "users" ["name"] ["id"], [JSVal.vStr "J", JSVal.vStr "e"]⟩ : SQLQuery).params =
      [("name", JSVal.vStr "J")].map Prod.snd ++
        (toConditionClause (some [("email", JSVal.vStr "e")])).2 ∧
    (upsertQuery stUsers "users" (.vObj [("name", .vStr "J")])
        (some [("email", .vStr "e")])).map (fun q => q.text) =
      (upsertQuery stUsers "users" (.vObj [("name", .vStr "J")]) none).map (fun q => q.text) ∧
    upsert stUsers "users" (.vObj [("name", .vStr "J")]) (some [("email", .vStr "e")])
        (fun _ => .ok []) = .ok [] :=
  ⟨upsert_params_text_and_result.1 stUsers "users" (.vObj [("name", .vStr "J")])
      (some [("email", .vStr "e")]) [("name", .vStr "J")]
      ⟨upsertText "users" ["name"] ["id"], [.vStr "J", .vStr "e"]⟩ rfl rfl,
   upsert_params_text_and_result.2.1 stUsers "users" (.vObj [("name", .vStr "J")])
      (some [("email", .vStr "e")]) none,
   upsert_params_text_and_result.2.2 stUsers "users" (.vObj [("name", .vStr "J")])
      (some [("email", .vStr "e")])
      ⟨upsertText "users" ["name"] ["id"], [.vStr "J", .vStr "e"]⟩
      (fun _ => .ok []) [] rfl rfl⟩

/-- C2 counterexample: `update` on a one-column table (`n = 1`) with two
kept conditions (`k = 2`) emits a statement whose WHERE fragment contains
the placeholder `$2`, which references parameter position `2 = n + 1` -
one of the appended condition-value positions the claim asserts are
referenced by no placeholder. -/
theorem update_placeholder_collision_counterexample :
    updateQuery stT1 "t1" (.vObj [("name", .vStr "J")])
        (some [("a", .vNum 1), ("b", .vNum 2)]) =
      .ok ⟨"\n            UPDATE t1\n            SET name = $1\n            WHERE 1 = 1  AND a = $1 AND b = $2\n            RETURNING *",
           [.vStr "J", .vNum 1, .vNum 2]⟩ ∧
    filterWithTableColumnName stT1 (.vObj [("name", .vStr "J")]) "t1" =
      .ok [("name", .vStr "J")] ∧
    (toConditionClause (some [("a", .vNum 1), ("b", .vNum 2)])).2.length = 2 ∧
    placeholdersIn
        "\n            UPDATE t1\n            SET name = $1\n            WHERE 1 = 1  AND a = $1 AND b = $2\n            RETURNING *" =
      [1, 1, 2] ∧
    2 ∈ placeholdersIn
        "\n            UPDATE t1\n            SET name = $1\n            WHERE 1 = 1  AND a = $1 AND b = $2\n            RETURNING *" :=
  ⟨rfl, rfl, rfl, by decide, by decide⟩

/-- C2 amended: the emitted UPDATE statement is the template over the
filtered keys (SET placeholders `$1..$n`) and the condition fragment
(whose indices restart at `$1`, ranging over `$1..$k`), with the `k`
condition values appended to the parameter list after the `n` filtered
values; those appended positions `n+1..n+k` are outside both placeholder
index ranges precisely when `k ≤ n`. -/
theorem update_statement_characterization :
    (∀ (st : Accessor) (t : String) (data : JSVal) (conds : Option Obj) (fd : Obj),
      filterWithTableColumnName st data t = .ok fd → fd ≠ [] →
      updateQuery st t data conds =
        .ok ⟨updateText t (fd.map Prod.fst) (toConditionClause conds).1,
             fd.map Prod.snd ++ (toConditionClause conds).2⟩) ∧
    (∀ (fd : Obj) (ps : List JSVal), (fd.map Prod.snd ++ ps).drop fd.length = ps) ∧
    (∀ cs : Obj, (toConditionClause (some cs)).1 = specFragment (keptConds cs) 1 ∧
      fragIndices cs 1 = List.range' 1 (keptConds cs).length ∧
      (toConditionClause (some cs)).2 = specParams (keptConds cs)) ∧
    (∀ n k j : Nat, k ≤ n → j ∈ List.range' 1 n ++ List.range' 1 k →
      ¬(n + 1 ≤ j ∧ j ≤ n + k)) := by
  refine ⟨?_, ?_, ?_, ?_⟩
  · intro st t data conds fd hf hne
    cases fd with
    | nil => exact absurd rfl hne
    | cons kv rest => simp [updateQuery, hf]
  · intro fd ps
    rw [← List.length_map fd Prod.snd, List.drop_left]
  · intro cs
    exact ⟨by rw [show toConditionClause (some cs) = condLoop cs 1 from rfl, condLoop_spec],
           fragIndices_range cs 1,
           by rw [show toConditionClause (some cs) = condLoop cs 1 from rfl, condLoop_spec]⟩
  · intro n k j hk hj
    rw [List.mem_append] at hj
    rcases hj with h | h <;> have := List.mem_range'_1.mp h <;> omega

/-- C2 amended witness: the characterization instantiated with `n = 1`,
`k = 1` (template and parameter order) and the index-range disjointness at
`n = 2`, `k = 1`, `j = 1`. -/
theorem update_statement_characterization_witness :
    updateQuery stT1 "t1" (.vObj [("name", .vStr "J")]) (some [("a", .vNum 7)]) =
      .ok ⟨updateText "t1" ["name"] (toConditionClause (some [("a", .vNum 7)])).1,
           [JSVal.vStr "J"] ++ (toConditionClause (some [("a", .vNum 7)])).2⟩ ∧
    ([("name", JSVal.vStr "J")].map Prod.snd ++ [JSVal.vNum 7]).drop 1 = [JSVal.vNum 7] ∧
    ¬((2 : Nat) + 1 ≤ 1 ∧ (1 : Nat) ≤ 2 + 1) :=
  ⟨update_statement_characterization.1 stT1 "t1" (.vObj [("name", .vStr "J")])
      (some [("a", .vNum 7)]) [("name", .vStr "J")] rfl (by simp),
   update_statement_characterization.2.1 [("name", JSVal.vStr "J")] [JSVal.vNum 7],
   update_statement_characterization.2.2.2 2 1 1 (by decide) (by decide)⟩

/-- C3 counterexample: a caller-controlled condition key is interpolated
verbatim into the emitted SQL text of `read` - the injected key occurs as
a substring of the statement, contradicting the claim that caller-supplied
condition keys never appear in the emitted SQL text. -/
theorem condition_key_in_sql_text_counterexample :
    readQuery emptyAccessor "users" (some [("1=1; DROP TABLE users; --", .vNum 1)]) =
      ⟨"\n            SELECT *\n            FROM users\n            WHERE 1 = 1  AND 1=1; DROP TABLE users; -- = $1",
       [.vNum 1]⟩ ∧
    "\n            SELECT *\n            FROM users\n            WHERE 1 = 1  AND " ++
        "1=1; DROP TABLE users; --" ++ " = $1" =
      "\n            SELECT *\n            FROM users\n            WHERE 1 = 1  AND 1=1; DROP TABLE users; -- = $1" :=
  ⟨rfl, rfl⟩

/-- C3 amended: data keys are safe - every key of the filtered data (the
only caller keys reaching the SET/INSERT column lists) is a member of the
cached catalog column list - but condition keys and caller-supplied
operator strings are interpolated verbatim into the WHERE fragment of the
emitted statement, with only the condition VALUES going through parameter
binding. -/
theorem identifier_provenance_characterization :
    (∀ (st : Accessor) (data : JSVal) (t : String) (fd : Obj) (kv : String × JSVal),
      filterWithTableColumnName st data t = .ok fd → kv ∈ fd →
      kv.1 ∈ (alGet st.columnsMap t).getD []) ∧
    (∀ (k : String) (n : Int),
      toConditionClause (some [(k, .vNum n)]) = (" AND " ++ k ++ " = $1", [.vNum n])) ∧
    (∀ (k op : String) (v : JSVal), op ≠ "" →
      toConditionClause (some [(k, .vObj [("operator", .vStr op), ("value", v)])]) =
        (" AND " ++ k ++ " " ++ op ++ " $1", [v])) ∧
    (∀ (st : Accessor) (t : String) (conds : Option Obj),
      readQuery st t conds =
        ⟨readText t (toConditionClause conds).1, (toConditionClause conds).2⟩) := by
  refine ⟨?_, ?_, ?_, fun st t conds => rfl⟩
  · intro st data t fd kv hf hm
    unfold filterWithTableColumnName at hf
    by_cases hd : jsTruthy data = true
    · rw [if_pos hd] at hf
      cases hc : convertObjectToFlat data "" with
      | error e => rw [hc] at hf; exact absurd hf (by simp)
      | ok dm =>
          rw [hc] at hf
          cases hg : alGet st.columnsMap t with
          | none => rw [hg] at hf; exact absurd hf (by simp)
          | some cols =>
              rw [hg] at hf
              simp only [Except.ok.injEq] at hf
              subst hf
              have hmem := (List.mem_filter.mp hm).2
              simp only [Bool.and_eq_true, List.elem_iff] at hmem
              simpa using hmem.1
    · rw [if_neg hd] at hf
      simp only [Except.ok.injEq] at hf
      subst hf
      exact absurd hm (List.not_mem_nil kv)
  · intro k n
    show condLoop [(k, .vNum n)] 1 = _
    simp [condLoop, condSkip, condOpVal, String.append_assoc]
    rfl
  · intro k op v hop
    have htr : jsTruthy (.vStr op) = true := by simpa [jsTruthy] using hop
    show condLoop [(k, .vObj [("operator", .vStr op), ("value", v)])] 1 = _
    simp [condLoop, condSkip, condOpVal, alGet, htr, jsToString, String.append_assoc]
    rfl

/-- C3 amended witness: the data-key provenance and the verbatim condition
key/operator interpolation at concrete inputs. -/
theorem identifier_provenance_characterization_witness :
    ("name", JSVal.vStr "J").1 ∈ (alGet stUsers.columnsMap "users").getD [] ∧
    toConditionClause (some [("evil key", .vNum 5)]) =
      (" AND " ++ "evil key" ++ " = $1", [.vNum 5]) ∧
    toConditionClause (some [("age", .vObj [("operator", .vStr "><bad"), ("value", .vNum 9)])]) =
      (" AND " ++ "age" ++ " " ++ "><bad" ++ " $1", [.vNum 9]) :=
  ⟨identifier_provenance_characterization.1 stUsers (.vObj [("name", .vStr "J")]) "users"
      [("name", .vStr "J")] ("name", .vStr "J") rfl (by simp),
   identifier_provenance_characterization.2.1 "evil key" 5,
   identifier_provenance_characterization.2.2.1 "age" "><bad" (.vNum 9) (by decide)⟩

/-- C4 counterexample: `read` and `delete` on a table whose metadata was
never cached do not fail with `SchemaNotDiscovered` - they build and issue
the statement, succeeding whenever the client does. -/
theorem read_delete_skip_schema_check_counterexample :
    alGet emptyAccessor.columnsMap "users" = none ∧
    read emptyAccessor "users" (some []) (fun _ => .ok []) = .ok [] ∧
    delete emptyAccessor "users" (some []) (fun _ => .ok []) = .ok [] :=
  ⟨rfl, rfl, rfl⟩

/-- C4 amended: `upsert` and `update` (whose data argument is an object,
so filtering runs) fail with the `SchemaNotDiscovered` error before any
query is issued when the table's columns were never cached, for every
client; `read` and `delete` never consult the metadata cache (their
result is independent of the accessor state) and issue their statement
regardless, succeeding whenever the client does. -/
theorem schema_check_scope_characterization :
    (∀ (st : Accessor) (t : String) (fields : List (String × JSVal)) (conds : Option Obj)
        (client : ClientFn),
      alGet st.columnsMap t = none →
      upsert st t (.vObj fields) conds client =
        .error (.err ("Table " ++ t ++ " columns not found. Call addTable() first.")) ∧
      update st t (.vObj fields) conds client =
        .error (.err ("Table " ++ t ++ " columns not found. Call addTable() first."))) ∧
    (∀ (st st' : Accessor) (t : String) (conds : Option Obj) (client : ClientFn),
      read st t conds client = read st' t conds client ∧
      delete st t conds client = delete st' t conds client) ∧
    (∀ (st : Accessor) (t : String) (conds : Option Obj) (client : ClientFn)
        (rows : List JSVal),
      client (readQuery st t conds) = .ok rows → read st t conds client = .ok rows) ∧
    (∀ (st : Accessor) (t : String) (conds : Option Obj) (client : ClientFn)
        (rows : List JSVal),
      client (deleteQuery st t conds) = .ok rows → delete st t conds client = .ok rows) := by
  refine ⟨?_, fun st st' t conds client => ⟨rfl, rfl⟩, ?_, ?_⟩
  · intro st t fields conds client hg
    constructor
    · simp [PG.upsert, upsertQuery, filterWithTableColumnName, jsTruthy, convertObjectToFlat, hg]
    · simp [PG.update, updateQuery, filterWithTableColumnName, jsTruthy, convertObjectToFlat, hg]
  · intro st t conds client rows hc
    simp [PG.read, runQuery, hc]
  · intro st t conds client rows hc
    simp [PG.delete, runQuery, hc]

/-- C4 amended witness: concrete instances for an undiscovered table. -/
theorem schema_check_scope_characterization_witness :
    (upsert emptyAccessor "users" (.vObj [("name", .vStr "J")]) none (fun _ => .ok []) =
        .error (.err "Table users columns not found. Call addTable() first.") ∧
      update emptyAccessor "users" (.vObj [("name", .vStr "J")]) none (fun _ => .ok []) =
        .error (.err "Table users columns not found. Call addTable() first.")) ∧
    read emptyAccessor "users" none (fun _ => .ok [.vNum 3]) = .ok [.vNum 3] :=
  ⟨schema_check_scope_characterization.1 emptyAccessor "users" [("name", .vStr "J")] none
      (fun _ => .ok []) rfl,
   schema_check_scope_characterization.2.2.1 emptyAccessor "users" none
      (fun _ => .ok [.vNum 3]) [.vNum 3] rfl⟩

/-- C5 counterexample: when the first catalog lookup of `addTable` fails,
the propagated error is the raw underlying error, identical for two
different table names - so it does not carry the table name (and is not a
distinct wrapper error). -/
theorem addTable_error_lacks_table_name_counterexample :
    (addTable emptyAccessor "users" (.error "boom") (.ok []) (.ok [])).2 =
      some (.dbErr "boom") ∧
    (addTable emptyAccessor "orders" (.error "boom") (.ok []) (.ok [])).2 =
      some (.dbErr "boom") :=
  ⟨rfl, rfl⟩

/-- C5 amended: a failing catalog lookup makes `addTable` propagate the
underlying error unchanged (the table name is only logged, not attached),
with no retry of the failed lookup and no rollback of the map entries the
earlier successful lookups already cached for that table. -/
theorem addTable_error_propagation :
    (∀ (st : Accessor) (t e : String) (u p : Except String (List String)),
      addTable st t (.error e) u p = (st, some (.dbErr e))) ∧
    (∀ (st : Accessor) (t e : String) (cols : List String) (p : Except String (List String)),
      addTable st t (.ok cols) (.error e) p =
        ({st with columnsMap := alSet st.columnsMap t cols}, some (.dbErr e))) ∧
    (∀ (st : Accessor) (t e : String) (cols ucols : List String),
      addTable st t (.ok cols) (.ok ucols) (.error e) =
        ({st with columnsMap := alSet st.columnsMap t cols,
                  uniqueColumnsMap := alSet st.uniqueColumnsMap t ucols},
         some (.dbErr e))) :=
  ⟨fun _ _ _ _ _ => rfl, fun _ _ _ _ _ => rfl, fun _ _ _ _ _ => rfl⟩

/-- C6 witness: on `users` (primary key `[id]`, unique `[email]` both
cached) the resolved target is `[id]` and the emitted statement's
ON CONFLICT target is `(id)`. -/
theorem upsert_conflict_target_preference_witness :
    resolveUniqueColumns stUsers "users" = some ["id"] ∧
    upsertQuery stUsers "users" (.vObj [("id", .vNum 1), ("name", .vStr "J")]) none =
      .ok ⟨upsertText "users" ["id", "name"] ["id"],
           [JSVal.vNum 1, JSVal.vStr "J"] ++ (toConditionClause none).2⟩ :=
  ⟨upsert_conflict_target_preference.1 stUsers "users" ["id"] rfl (by simp),
   upsert_conflict_target_preference.2.2 stUsers "users"
      (.vObj [("id", .vNum 1), ("name", .vStr "J")]) none
      [("id", .vNum 1), ("name", .vStr "J")] ["id"] rfl (by simp) rfl (by simp)⟩
